import Mathlib

/-!
Shallow embedding of the asynchronous task-coordination core of the
repository: the task lifecycle manager (backend/utils/task_manager.py),
the cancel route (backend/main.py, DELETE /tasks/task_id), and the
WebSocket connection registry (backend/utils/websocket_manager.py).

Modelling decisions:
* Redis is a remote key-value store; its task hash, sets and lists are
  modelled as in-memory association lists and lists.  `lpush` prepends,
  `rpop` removes the last element, matching the redis commands used.
* `datetime.now().isoformat()` timestamps are modelled as abstract
  `Nat` clock ticks passed in by the caller as a `now` argument.
* Opaque payloads (parameters, result, error strings) are `String`.
* `uuid.uuid4()` is modelled by passing the fresh task id as an argument.
* Python functions that signal nothing to the caller return the new
  state; `retry_task` returns `Bool × state` exactly as the source
  returns a bool.
* The asyncio event loop is single-threaded; awaiting a non-reentrant
  `asyncio.Lock` that the same coroutine chain already holds never
  resolves.  Blocking/never-completing execution is modelled as `none`.
-/

namespace SocialApp

/-- Association-list lookup, modelling a Python dict / redis key read. -/
def alistLookup {α : Type} : List (String × α) → String → Option α
  | [], _ => none
  | (k, v) :: rest, key => if k = key then some v else alistLookup rest key

/-- Association-list store, modelling a Python dict / redis key write. -/
def alistStore {α : Type} : List (String × α) → String → α → List (String × α)
  | [], key, v => [(key, v)]
  | (k, v0) :: rest, key, v =>
      if k = key then (key, v) :: rest else (k, v0) :: alistStore rest key v

/-- Association-list delete, modelling `del d[key]`. -/
def alistRemove {α : Type} : List (String × α) → String → List (String × α)
  | [], _ => []
  | (k, v0) :: rest, key =>
      if k = key then rest else (k, v0) :: alistRemove rest key

/-- Redis SADD on a set modelled as a duplicate-free list. -/
def sadd (s : List String) (x : String) : List String :=
  if x ∈ s then s else x :: s

/-- Redis SREM. -/
def srem (s : List String) (x : String) : List String :=
  s.filter (fun y => y ≠ x)

/-- Redis LPUSH: prepend to the head of the list. -/
def lpush (l : List String) (x : String) : List String := x :: l

/-- The `TaskStatus` enumeration of task_manager.py. -/
inductive TaskStatus where
  | pending
  | running
  | completed
  | failed
  | cancelled
  deriving DecidableEq

/-- The terminal-status test `status in [COMPLETED, FAILED, CANCELLED]`
used at task_manager.py line 175 and main.py line 377. -/
def TaskStatus.isTerminal : TaskStatus → Bool
  | .completed => true
  | .failed => true
  | .cancelled => true
  | _ => false

/-- The `TaskPriority` enumeration of task_manager.py. -/
inductive TaskPriority where
  | low
  | medium
  | high
  | critical
  deriving DecidableEq

/-- The task record dictionary built in `TaskManager.create_task`
(task_manager.py lines 77-94), one field per dictionary key. -/
structure TaskData where
  task_id : String
  task_type : String
  user_id : String
  parameters : String
  status : TaskStatus
  priority : TaskPriority
  max_retries : Int
  retry_count : Int
  timeout_seconds : Int
  created_at : Nat
  updated_at : Nat
  started_at : Option Nat
  completed_at : Option Nat
  result : Option String
  error : Option String
  progress : Int
  deriving DecidableEq

/-- The four per-priority redis lists `task_queue:low` .. `task_queue:critical`. -/
structure Queues where
  low : List String
  medium : List String
  high : List String
  critical : List String
  deriving DecidableEq

/-- Select the list of one priority tier. -/
def Queues.get (q : Queues) : TaskPriority → List String
  | .low => q.low
  | .medium => q.medium
  | .high => q.high
  | .critical => q.critical

/-- Replace the list of one priority tier. -/
def Queues.set (q : Queues) : TaskPriority → List String → Queues
  | .low, l => { q with low := l }
  | .medium, l => { q with medium := l }
  | .high, l => { q with high := l }
  | .critical, l => { q with critical := l }

/-- The redis state visible to `TaskManager`: the `task:` records, the
`user_tasks:` sets, the `active_tasks` set and the priority queues. -/
structure ManagerState where
  tasks : List (String × TaskData)
  userTasks : List (String × List String)
  activeTasks : List String
  queues : Queues
  deriving DecidableEq

/-- The state of an empty redis instance. -/
def ManagerState.empty : ManagerState :=
  { tasks := [], userTasks := [], activeTasks := [],
    queues := { low := [], medium := [], high := [], critical := [] } }

/-- SADD of a task id into one user's `user_tasks:` set. -/
def saddUser (m : List (String × List String)) (u id : String) :
    List (String × List String) :=
  match m with
  | [] => [(u, [id])]
  | (k, s) :: rest =>
      if k = u then (k, sadd s id) :: rest else (k, s) :: saddUser rest u id

/-- Embedding of `TaskManager.create_task` (task_manager.py lines 61-119):
builds the pending record, stores it, adds the id to the user set and the
active set, and LPUSHes the id onto its priority tier queue.  The fresh
uuid is passed in as `task_id`; `now` stands for `datetime.now()`. -/
def createTask (st : ManagerState) (now : Nat)
    (task_id task_type user_id parameters : String)
    (priority : TaskPriority) (max_retries timeout_seconds : Int) :
    String × ManagerState :=
  let d : TaskData :=
    { task_id := task_id, task_type := task_type, user_id := user_id,
      parameters := parameters, status := .pending, priority := priority,
      max_retries := max_retries, retry_count := 0,
      timeout_seconds := timeout_seconds,
      created_at := now, updated_at := now,
      started_at := none, completed_at := none,
      result := none, error := none, progress := 0 }
  (task_id,
    { st with
      tasks := alistStore st.tasks task_id d,
      userTasks := saddUser st.userTasks user_id task_id,
      activeTasks := sadd st.activeTasks task_id,
      queues := st.queues.set priority (lpush (st.queues.get priority) task_id) })

/-- Keep the old optional value unless the caller supplied a new one:
the `if x is not None: current_data[k] = x` pattern of lines 163-170. -/
def overwrite {α : Type} (new old : Option α) : Option α :=
  match new with
  | some v => some v
  | none => old

/-- The record mutation performed by `TaskManager.update_task_status`
(task_manager.py lines 159-176) on the fetched record.  Each field is
written exactly when the corresponding Python assignment runs: `status`
and `updated_at` unconditionally; `progress`, `error`, `result` only if
the argument is not None; `started_at` only when the new status is
running and `started_at` was unset; `completed_at` when the new status
is terminal.  The Python assignments touch pairwise distinct keys, so
the single simultaneous record update below is the same function. -/
def applyUpdates (d : TaskData) (now : Nat) (status : TaskStatus)
    (progress : Option Int) (error result : Option String) : TaskData :=
  { d with
    status := status,
    updated_at := now,
    progress := progress.getD d.progress,
    error := overwrite error d.error,
    result := overwrite result d.result,
    started_at :=
      if status = .running ∧ d.started_at = none then some now else d.started_at,
    completed_at :=
      if status.isTerminal then some now else d.completed_at }

/-- Embedding of `TaskManager.update_task_status` (lines 139-192).
A missing task is a silent no-op (the source logs a warning and
returns).  A terminal new status additionally SREMs the id from the
active-task set.  The function raises nothing to its caller. -/
def updateTaskStatus (st : ManagerState) (now : Nat) (task_id : String)
    (status : TaskStatus) (progress : Option Int)
    (error result : Option String) : ManagerState :=
  match alistLookup st.tasks task_id with
  | none => st
  | some d0 =>
      { st with
        tasks := alistStore st.tasks task_id
          (applyUpdates d0 now status progress error result),
        activeTasks :=
          if status.isTerminal then srem st.activeTasks task_id
          else st.activeTasks }

/-- Embedding of `TaskManager.complete_task` (lines 194-202). -/
def completeTask (st : ManagerState) (now : Nat) (task_id result : String) :
    ManagerState :=
  updateTaskStatus st now task_id .completed (some 100) none (some result)

/-- Embedding of `TaskManager.fail_task` (lines 204-211). -/
def failTask (st : ManagerState) (now : Nat) (task_id error : String) :
    ManagerState :=
  updateTaskStatus st now task_id .failed none (some error) none

/-- Embedding of `TaskManager.cancel_task` (lines 213-220): an
unconditional status update to cancelled with the reason as error. -/
def cancelTask (st : ManagerState) (now : Nat) (task_id reason : String) :
    ManagerState :=
  updateTaskStatus st now task_id .cancelled none (some reason) none

/-- The `mark_running` operation as invoked by the background executors
in main.py (for example line 399): `update_task_status(task_id, "running")`
with no further arguments. -/
def markRunning (st : ManagerState) (now : Nat) (task_id : String) :
    ManagerState :=
  updateTaskStatus st now task_id .running none none none

/-- Embedding of `TaskManager.retry_task` (lines 222-267).  Missing task
or `retry_count >= max_retries` returns False with nothing written;
otherwise the record is reset to pending with `retry_count` incremented
and cleared `started_at`/`completed_at`/`error`/`progress`, the id is
re-added to the active set and LPUSHed onto the queue of the record's
stored (original) priority. -/
def retryTask (st : ManagerState) (now : Nat) (task_id : String) :
    Bool × ManagerState :=
  match alistLookup st.tasks task_id with
  | none => (false, st)
  | some d0 =>
      if d0.max_retries ≤ d0.retry_count then (false, st)
      else
        let d1 : TaskData :=
          { d0 with
            retry_count := d0.retry_count + 1, status := .pending,
            updated_at := now, started_at := none, completed_at := none,
            error := none, progress := 0 }
        (true,
          { st with
            tasks := alistStore st.tasks task_id d1,
            activeTasks := sadd st.activeTasks task_id,
            queues := st.queues.set d0.priority
              (lpush (st.queues.get d0.priority) task_id) })

/-- Embedding of `TaskManager.get_next_task` (lines 341-358): RPOP on
the tier queue, returning the popped id (if any).  Nothing else of the
state is read: in particular the task record and its status are not
consulted. -/
def getNextTask (st : ManagerState) (priority : TaskPriority) :
    Option String × ManagerState :=
  let q := st.queues.get priority
  (q.getLast?, { st with queues := st.queues.set priority q.dropLast })

/-- Outcomes of the DELETE /tasks/task_id route (main.py lines 364-382),
one constructor per HTTP response: 200, 404, 403, 400. -/
inductive CancelOutcome where
  | ok
  | notFound
  | forbidden
  | badRequest
  deriving DecidableEq

/-- Embedding of the `cancel_task` route handler in main.py (lines
364-382): 404 if the task is absent, 403 if owned by another user, 400
if the status is already terminal, otherwise
`cancel_task(task_id, "Cancelled by user")`. -/
def cancelRoute (st : ManagerState) (now : Nat) (task_id user_id : String) :
    CancelOutcome × ManagerState :=
  match alistLookup st.tasks task_id with
  | none => (.notFound, st)
  | some d =>
      if d.user_id ≠ user_id then (.forbidden, st)
      else if d.status.isTerminal then (.badRequest, st)
      else (.ok, cancelTask st now task_id "Cancelled by user")

/-- Connection metadata stored per user in websocket_manager.py
(lines 46-50). -/
structure ConnMeta where
  connected_at : Nat
  last_activity : Nat
  message_count : Nat
  deriving DecidableEq

/-- State of `WebSocketManager` (websocket_manager.py lines 18-29):
the per-user connection map (websocket handles as numbers), the
per-user subscription sets, the metadata map, and the single
non-reentrant `asyncio.Lock`, modelled by a held flag. -/
structure WSState where
  active_connections : List (String × Nat)
  subscriptions : List (String × List String)
  connection_metadata : List (String × ConnMeta)
  lockHeld : Bool
  deriving DecidableEq

/-- A freshly constructed `WebSocketManager`. -/
def WSState.empty : WSState :=
  { active_connections := [], subscriptions := [],
    connection_metadata := [], lockHeld := false }

/-- Body of `WebSocketManager.disconnect` inside its lock
(lines 58-74): if the user is connected, close the socket (an external
effect) and delete its three entries; otherwise do nothing. -/
def disconnectBody (st : WSState) (user_id : String) : WSState :=
  match alistLookup st.active_connections user_id with
  | none => st
  | some _ =>
      { st with
        active_connections := alistRemove st.active_connections user_id,
        subscriptions := alistRemove st.subscriptions user_id,
        connection_metadata := alistRemove st.connection_metadata user_id }

/-- Embedding of `WebSocketManager.disconnect` (lines 54-74).  The whole
body runs under `async with self._lock`; if the lock is already held by
the current coroutine chain, the await never resolves on the
single-threaded event loop, modelled as `none`. -/
def disconnectW (st : WSState) (user_id : String) : Option WSState :=
  if st.lockHeld then none
  else
    let st1 := disconnectBody { st with lockHeld := true } user_id
    some { st1 with lockHeld := false }

/-- Embedding of `WebSocketManager.connect` (lines 31-52).  Under the
lock: if a connection already exists for the user, the source awaits
`self.disconnect(user_id)` — a call that tries to acquire the same
non-reentrant lock the enclosing `async with` still holds, hence never
resolves (`none`); otherwise the new channel, an empty subscription set
and fresh metadata are stored. -/
def connectW (st : WSState) (now : Nat) (user_id : String)
    (websocket : Nat) : Option WSState :=
  if st.lockHeld then none
  else
    let st1 : WSState := { st with lockHeld := true }
    let afterSupersede : Option WSState :=
      if (alistLookup st1.active_connections user_id).isSome then
        disconnectW st1 user_id
      else some st1
    match afterSupersede with
    | none => none
    | some st2 =>
        some
          { st2 with
            active_connections := alistStore st2.active_connections user_id websocket,
            subscriptions := alistStore st2.subscriptions user_id [],
            connection_metadata :=
              alistStore st2.connection_metadata user_id
                { connected_at := now, last_activity := now, message_count := 0 },
            lockHeld := false }

/-- Operations on a single priority tier, for the FIFO claim: an
enqueue is a `create_task` at that tier, a dequeue is `get_next_task`. -/
inductive QOp where
  | enq (task_id : String)
  | deq

/-- Run a list of tier operations through the manager, collecting the
ids returned by successful dequeues in order. -/
def runTier (p : TaskPriority) (now : Nat) (st : ManagerState) :
    List QOp → List String × ManagerState
  | [] => ([], st)
  | QOp.enq id :: rest =>
      runTier p now (createTask st now id "job" "user" "params" p 3 300).2 rest
  | QOp.deq :: rest =>
      match (getNextTask st p).1 with
      | some id =>
          let r := runTier p now (getNextTask st p).2 rest
          (id :: r.1, r.2)
      | none => runTier p now (getNextTask st p).2 rest

/-- The ids enqueued by a tier-operation list, in order. -/
def enqIds : List QOp → List String
  | [] => []
  | QOp.enq id :: rest => id :: enqIds rest
  | QOp.deq :: rest => enqIds rest

/-- The full task-manager API surface reachable from the repository, as
one operation type, for claims quantifying over op sequences. -/
inductive MOp where
  | create (now : Nat) (task_id task_type user_id parameters : String)
      (priority : TaskPriority) (max_retries timeout_seconds : Int)
  | updateStatus (now : Nat) (task_id : String) (status : TaskStatus)
      (progress : Option Int) (error result : Option String)
  | complete (now : Nat) (task_id result : String)
  | fail (now : Nat) (task_id error : String)
  | cancel (now : Nat) (task_id reason : String)
  | retry (now : Nat) (task_id : String)
  | next (priority : TaskPriority)
  | cancelR (now : Nat) (task_id user_id : String)

/-- Apply one manager operation, discarding the returned value. -/
def applyOp (st : ManagerState) : MOp → ManagerState
  | .create now id ty uid ps pr mr ts => (createTask st now id ty uid ps pr mr ts).2
  | .updateStatus now id s p e r => updateTaskStatus st now id s p e r
  | .complete now id r => completeTask st now id r
  | .fail now id e => failTask st now id e
  | .cancel now id reason => cancelTask st now id reason
  | .retry now id => (retryTask st now id).2
  | .next p => (getNextTask st p).2
  | .cancelR now id uid => (cancelRoute st now id uid).2

/-- Run a sequence of manager operations. -/
def runOps (st : ManagerState) : List MOp → ManagerState
  | [] => st
  | op :: rest => runOps (applyOp st op) rest

/-- A create operation requests a non-negative retry budget (true of
every `create_task` call in the repository, which all use the default
`max_retries = 3`); non-create operations satisfy this trivially. -/
def MOp.createNonneg : MOp → Bool
  | .create _ _ _ _ _ _ mr _ => decide (0 ≤ mr)
  | _ => true

/-- The retry-budget invariant: every stored record satisfies
`retry_count ≤ max_retries`. -/
def RetryInv (st : ManagerState) : Prop :=
  ∀ id d, alistLookup st.tasks id = some d → d.retry_count ≤ d.max_retries

/-- Concrete state: one task `t` created at tick 0 by user `u` at
medium priority with the default budget, still pending. -/
def stPending : ManagerState :=
  (createTask ManagerState.empty 0 "t" "content_generation" "u" "params"
    .medium 3 300).2

/-- The pending record stored in `stPending`. -/
def dPending : TaskData :=
  { task_id := "t", task_type := "content_generation", user_id := "u",
    parameters := "params", status := .pending, priority := .medium,
    max_retries := 3, retry_count := 0, timeout_seconds := 300,
    created_at := 0, updated_at := 0, started_at := none,
    completed_at := none, result := none, error := none, progress := 0 }

/-- Concrete state: the task `t` of `stPending` completed at tick 1
with result `r`. -/
def stDone : ManagerState := completeTask stPending 1 "t" "r"

/-- The completed record stored in `stDone`. -/
def dDone : TaskData :=
  { dPending with
    status := .completed, updated_at := 1,
    completed_at := some 1, result := some "r", progress := 100 }

/-- Concrete registry state: user `u1` connected with channel 1. -/
def wsConn1 : WSState :=
  { active_connections := [("u1", 1)], subscriptions := [("u1", [])],
    connection_metadata :=
      [("u1", { connected_at := 0, last_activity := 0, message_count := 0 })],
    lockHeld := false }

/-- Concrete registry state: user `bob` connected with channel 7. -/
def wsConnBob : WSState :=
  { active_connections := [("bob", 7)], subscriptions := [("bob", [])],
    connection_metadata :=
      [("bob", { connected_at := 3, last_activity := 3, message_count := 0 })],
    lockHeld := false }

/-! Helper lemmas about the store primitives. -/

/-- Reading back an association list after a store: the stored key sees
the new value, every other key is unaffected. -/
theorem alistLookup_store {α : Type} (l : List (String × α)) (k : String)
    (v : α) (key : String) :
    alistLookup (alistStore l k v) key =
      if k = key then some v else alistLookup l key := by
  induction l with
  | nil => rfl
  | cons hd tl ih =>
    obtain ⟨k0, v0⟩ := hd
    by_cases h0 : k0 = k
    · subst h0
      by_cases hk : k0 = key <;> simp [alistStore, alistLookup, hk]
    · by_cases hk0 : k0 = key
      · subst hk0
        have hk : ¬k = k0 := fun h => h0 h.symm
        simp [alistStore, alistLookup, h0, hk]
      · simp [alistStore, alistLookup, h0, hk0, ih]

/-- Reading back the tier that was just replaced. -/
theorem queues_get_set_same (q : Queues) (p : TaskPriority) (l : List String) :
    (q.set p l).get p = l := by
  cases p <;> rfl

/-! Claim theorems. -/

/-- Claim C1, counterexample to the claim as stated: `stDone` stores
task `t` with the terminal status completed, yet a subsequent `fail_task`
call changes the stored record, flipping its status to failed.  So a
terminal record is not immutable under later lifecycle calls. -/
theorem claimC1_counterexample :
    (alistLookup stDone.tasks "t").map TaskData.status = some .completed ∧
    (alistLookup (failTask stDone 2 "t" "boom").tasks "t").map TaskData.status =
      some .failed := by
  decide

/-- Claim C1 (amended): `update_task_status` has no terminal-state
guard, so on a task whose stored status is terminal a subsequent `fail`
call does change the stored record (its status becomes failed).  The
idempotence half survives: repeating `complete` with the identical
result on an already-completed task rewrites only the `updated_at` and
`completed_at` timestamps and returns without error. -/
theorem claimC1_amended (st : ManagerState) (now : Nat) (id e r : String)
    (d : TaskData) (h : alistLookup st.tasks id = some d)
    (hterm : d.status.isTerminal = true) :
    (alistLookup (failTask st now id e).tasks id).map TaskData.status =
      some .failed ∧
    (d.status = .completed → d.result = some r → d.progress = 100 →
      alistLookup (completeTask st now id r).tasks id =
        some { d with updated_at := now, completed_at := some now }) := by
  constructor
  · unfold failTask updateTaskStatus
    rw [h]
    simp [alistLookup_store, applyUpdates]
  · intro hs hr hp
    unfold completeTask updateTaskStatus
    rw [h]
    simp only [alistLookup_store, if_pos rfl]
    cases d
    simp_all [applyUpdates, overwrite, TaskStatus.isTerminal]

/-- Witness for claim C1's amended theorem at the concrete completed
state `stDone`. -/
theorem claimC1_amended_witness :
    (alistLookup (failTask stDone 2 "t" "boom").tasks "t").map TaskData.status =
      some .failed ∧
    alistLookup (completeTask stDone 2 "t" "r").tasks "t" =
      some { dDone with updated_at := 2, completed_at := some 2 } := by
  have h := claimC1_amended stDone 2 "t" "boom" "r" dDone (by decide) (by decide)
  exact ⟨h.1, h.2 (by decide) (by decide) (by decide)⟩

/-- Claim C3, counterexample to the claim as stated: after creating
pending task `t` (which enqueues it on the medium tier) and cancelling
it, the id `t` is still in the medium tier queue while its record
status is cancelled, and `get_next_task` hands it out anyway. -/
theorem claimC3_counterexample :
    (cancelTask stPending 1 "t" "stop").queues.get .medium = ["t"] ∧
    (alistLookup (cancelTask stPending 1 "t" "stop").tasks "t").map
      TaskData.status = some .cancelled ∧
    (getNextTask (cancelTask stPending 1 "t" "stop") .medium).1 = some "t" := by
  decide

/-- Claim C3 (amended): `cancel_task` (like every `update_task_status`
path) leaves all four tier queues untouched, so a queued id can refer
to a non-pending task; and `get_next_task` returns the tail of the tier
list without consulting the task record, performing no status check and
dropping nothing (no dequeuing consumer in the repository checks
status either). -/
theorem claimC3_amended (st : ManagerState) (now : Nat) (id reason : String)
    (p : TaskPriority) :
    (cancelTask st now id reason).queues = st.queues ∧
    (getNextTask st p).1 = (st.queues.get p).getLast? := by
  constructor
  · unfold cancelTask updateTaskStatus
    rcases h : alistLookup st.tasks id with _ | d <;> rfl
  · rfl

/-- Claim C7, counterexample to the claim as stated: no clamping
exists.  Sending progress 150 to pending task `t` stores 150 (outside
[0,100]), and after storing 50, sending 30 stores the decreased
value 30.  The stored progress is neither bounded nor monotone. -/
theorem claimC7_counterexample :
    (alistLookup (updateTaskStatus stPending 1 "t" .running (some 150)
        none none).tasks "t").map TaskData.progress = some 150 ∧
    (alistLookup (updateTaskStatus
        (updateTaskStatus stPending 1 "t" .running (some 50) none none)
        2 "t" .running (some 30) none none).tasks "t").map
      TaskData.progress = some 30 := by
  decide

/-- Claim C7 (amended): for an existing task, a progress update never
returns an error (the function signals nothing to its caller) and the
supplied value is stored verbatim — no clamping to [0,100] and no
monotonicity enforcement takes place. -/
theorem claimC7_amended (st : ManagerState) (now : Nat) (id : String)
    (status : TaskStatus) (p : Int) (er res : Option String) (d : TaskData)
    (h : alistLookup st.tasks id = some d) :
    (alistLookup (updateTaskStatus st now id status (some p) er res).tasks
      id).map TaskData.progress = some p := by
  unfold updateTaskStatus
  rw [h]
  simp [alistLookup_store, applyUpdates]

/-- Witness for claim C7's amended theorem: progress 150 on the
concrete pending task is stored as 150. -/
theorem claimC7_amended_witness :
    (alistLookup (updateTaskStatus stPending 1 "t" .running (some 150)
        none none).tasks "t").map TaskData.progress = some 150 :=
  claimC7_amended stPending 1 "t" .running 150 none none dPending (by decide)

/-- Claim C9, counterexample to the claim as stated: `mark_running` on
an id absent from the store completes normally and leaves the store
unchanged — a silent no-op, not a NotFound failure (the source logs a
warning and returns; its return type carries no error). -/
theorem claimC9_counterexample :
    alistLookup ManagerState.empty.tasks "ghost" = none ∧
    markRunning ManagerState.empty 0 "ghost" = ManagerState.empty := by
  decide

/-- Claim C9 (amended): `mark_running` on an absent task is a silent
no-op returning the store unchanged (it does not fail with NotFound);
on an existing non-terminal task it sets status running and sets the
started timestamp exactly when it was unset. -/
theorem claimC9_amended (st : ManagerState) (now : Nat) (id : String) :
    (alistLookup st.tasks id = none → markRunning st now id = st) ∧
    (∀ d, alistLookup st.tasks id = some d → d.status.isTerminal = false →
      alistLookup (markRunning st now id).tasks id =
        some { d with
               status := .running, updated_at := now,
               started_at :=
                 if d.started_at = none then some now else d.started_at }) := by
  constructor
  · intro h
    unfold markRunning updateTaskStatus
    rw [h]
  · intro d h hnt
    unfold markRunning updateTaskStatus
    rw [h]
    simp only [alistLookup_store, if_pos rfl]
    cases d
    simp_all [applyUpdates, overwrite, TaskStatus.isTerminal]

/-- Witness for claim C9's amended theorem at the concrete pending
task, whose unset started timestamp becomes the call tick. -/
theorem claimC9_amended_witness :
    alistLookup (markRunning stPending 1 "t").tasks "t" =
      some { dPending with
             status := .running, updated_at := 1,
             started_at := some 1 } := by
  have h := (claimC9_amended stPending 1 "t").2 dPending (by decide) (by decide)
  simpa [dPending] using h

/-- Claim C8: the supersede path of `WebSocketManager.connect` is a
deadlock.  Evaluating the code at the failing input: connecting `u1`
on an empty registry succeeds and yields `wsConn1`; calling connect
again for `u1` with a new channel never completes (`none`), because
connect still holds the single non-reentrant asyncio lock while it
awaits `disconnect`, which blocks acquiring that same lock.  The
old connection is therefore never closed and never replaced, contrary
to the intended last-writer-wins semantics. -/
theorem claimC8_deadlock :
    connectW WSState.empty 0 "u1" 1 = some wsConn1 ∧
    connectW wsConn1 5 "u1" 2 = none := by
  decide

/-- Claim C10: whenever `connect` is called for an identity that
already has a registered connection (and the lock is free, as it is
between requests), the call never completes: the body holds the
manager's single non-reentrant lock and awaits `disconnect`, which
tries to acquire the same lock, so the supersede path deadlocks and
the replacement of the existing connection is never reached. -/
theorem claimC10 (st : WSState) (now : Nat) (u : String) (w : Nat)
    (hlock : st.lockHeld = false)
    (hconn : (alistLookup st.active_connections u).isSome = true) :
    connectW st now u w = none := by
  unfold connectW
  rw [hlock]
  simp [disconnectW, hconn]

/-- Witness for claim C10 at the concrete state with `bob` connected. -/
theorem claimC10_witness : connectW wsConnBob 4 "bob" 9 = none :=
  claimC10 wsConnBob 4 "bob" 9 (by decide) (by decide)

/-- Claim C5: at the system boundary (the DELETE /tasks/task_id route),
cancellation of an existing task succeeds only from pending or running;
an authorized cancel of a task already in a terminal status is rejected
with the InvalidTransition-class response (HTTP 400, mapped to
`badRequest` here) and leaves the whole store unchanged; an authorized
cancel of a pending or running task succeeds, sets status cancelled and
stores the route's reason string as the error field; and the underlying
`cancel_task(task_id, reason)` stores its reason argument as the error
field of any existing task. -/
theorem claimC5 (st : ManagerState) (now : Nat) (task_id user_id : String)
    (d : TaskData) (h : alistLookup st.tasks task_id = some d) :
    ((cancelRoute st now task_id user_id).1 = .ok →
      d.status = .pending ∨ d.status = .running) ∧
    (d.status.isTerminal = true → d.user_id = user_id →
      cancelRoute st now task_id user_id = (.badRequest, st)) ∧
    ((d.status = .pending ∨ d.status = .running) → d.user_id = user_id →
      (cancelRoute st now task_id user_id).1 = .ok ∧
      (alistLookup (cancelRoute st now task_id user_id).2.tasks task_id).map
        TaskData.status = some .cancelled ∧
      (alistLookup (cancelRoute st now task_id user_id).2.tasks task_id).map
        TaskData.error = some (some "Cancelled by user")) ∧
    (∀ reason,
      (alistLookup (cancelTask st now task_id reason).tasks task_id).map
        TaskData.error = some (some reason)) := by
  refine ⟨?_, ?_, ?_, ?_⟩
  · intro hok
    unfold cancelRoute at hok
    rw [h] at hok
    by_cases hu : d.user_id = user_id
    · by_cases ht : d.status.isTerminal = true
      · simp [hu, ht] at hok
      · cases hs : d.status <;> simp_all [TaskStatus.isTerminal]
    · simp [hu] at hok
  · intro ht hu
    unfold cancelRoute
    rw [h]
    simp [hu, ht]
  · intro hs hu
    have ht : d.status.isTerminal = false := by
      rcases hs with hs | hs <;> rw [hs] <;> rfl
    have hcr : cancelRoute st now task_id user_id =
        (.ok, cancelTask st now task_id "Cancelled by user") := by
      unfold cancelRoute
      rw [h]
      simp [hu, ht]
    rw [hcr]
    refine ⟨rfl, ?_, ?_⟩ <;>
      (unfold cancelTask updateTaskStatus; rw [h];
        simp [alistLookup_store, applyUpdates, overwrite])
  · intro reason
    unfold cancelTask updateTaskStatus
    rw [h]
    simp [alistLookup_store, applyUpdates, overwrite]

/-- Witness for claim C5 at the concrete pending task, cancelled by
its owner through the route. -/
theorem claimC5_witness :
    (cancelRoute stPending 1 "t" "u").1 = .ok ∧
    (alistLookup (cancelRoute stPending 1 "t" "u").2.tasks "t").map
      TaskData.status = some .cancelled := by
  have h := claimC5 stPending 1 "t" "u" dPending (by decide)
  have h3 := h.2.2.1 (Or.inl (by decide)) (by decide)
  exact ⟨h3.1, h3.2.1⟩

/-- Claim C6, counterexample to the claim as stated: `retry_task`
never inspects the status, so retrying the concrete completed (not
failed) task `t` succeeds and resets it to pending. -/
theorem claimC6_counterexample :
    (alistLookup stDone.tasks "t").map TaskData.status = some .completed ∧
    (retryTask stDone 2 "t").1 = true ∧
    (alistLookup (retryTask stDone 2 "t").2.tasks "t").map TaskData.status =
      some .pending := by
  decide

/-- Claim C6 (amended): `retry_task` is allowed on any existing task
regardless of its status — the source never checks for failed.  When
`retry_count < max_retries` it returns success, increments the retry
count, resets the record to pending clearing the started and completed
timestamps, the error and the progress, and re-enqueues the id at the
record's stored (original) priority tier. -/
theorem claimC6_amended (st : ManagerState) (now : Nat) (id : String)
    (d : TaskData) (h : alistLookup st.tasks id = some d)
    (hlt : d.retry_count < d.max_retries) :
    (retryTask st now id).1 = true ∧
    alistLookup (retryTask st now id).2.tasks id =
      some { d with
             retry_count := d.retry_count + 1, status := .pending,
             updated_at := now, started_at := none, completed_at := none,
             error := none, progress := 0 } ∧
    (retryTask st now id).2.queues.get d.priority =
      lpush (st.queues.get d.priority) id := by
  have hnle : ¬d.max_retries ≤ d.retry_count := not_le.mpr hlt
  unfold retryTask
  rw [h]
  simp [hnle, alistLookup_store, queues_get_set_same]

/-- Witness for claim C6's amended theorem at the concrete completed
task: retry succeeds and LPUSHes `t` back onto the medium tier. -/
theorem claimC6_amended_witness :
    (retryTask stDone 2 "t").1 = true ∧
    (retryTask stDone 2 "t").2.queues.get .medium =
      lpush (stDone.queues.get .medium) "t" := by
  have h := claimC6_amended stDone 2 "t" dDone (by decide) (by decide)
  exact ⟨h.1, h.2.2⟩

/-- Preservation of the retry-budget invariant by
`update_task_status`, which never touches `retry_count` or
`max_retries`. -/
theorem retryInv_updateTaskStatus (st : ManagerState) (now : Nat)
    (id : String) (s : TaskStatus) (pr : Option Int) (er res : Option String)
    (h : RetryInv st) : RetryInv (updateTaskStatus st now id s pr er res) := by
  intro iid dd hd
  unfold updateTaskStatus at hd
  rcases hl : alistLookup st.tasks id with _ | d0
  · rw [hl] at hd
    exact h iid dd hd
  · rw [hl] at hd
    simp only [alistLookup_store] at hd
    split at hd
    · cases Option.some.inj hd
      exact h id d0 hl
    · exact h iid dd hd

/-- Preservation of the retry-budget invariant by every operation of
the manager API, provided create operations request a non-negative
retry budget. -/
theorem retryInv_applyOp (st : ManagerState) (op : MOp)
    (hop : op.createNonneg = true) (h : RetryInv st) :
    RetryInv (applyOp st op) := by
  cases op with
  | create now id ty uid ps pr mr ts =>
    intro iid dd hd
    simp only [applyOp, createTask] at hd
    simp only [alistLookup_store] at hd
    split at hd
    · cases Option.some.inj hd
      have hmr : (0 : Int) ≤ mr := by
        simpa [MOp.createNonneg] using hop
      simpa using hmr
    · exact h iid dd hd
  | updateStatus now id s p e r => exact retryInv_updateTaskStatus _ _ _ _ _ _ _ h
  | complete now id r => exact retryInv_updateTaskStatus _ _ _ _ _ _ _ h
  | fail now id e => exact retryInv_updateTaskStatus _ _ _ _ _ _ _ h
  | cancel now id reason => exact retryInv_updateTaskStatus _ _ _ _ _ _ _ h
  | retry now id =>
    intro iid dd hd
    simp only [applyOp, retryTask] at hd
    rcases hl : alistLookup st.tasks id with _ | d0
    · rw [hl] at hd
      exact h iid dd hd
    · by_cases hge : d0.max_retries ≤ d0.retry_count
      · simp [hl, hge] at hd
        exact h iid dd hd
      · simp [hl, hge, alistLookup_store] at hd
        split at hd
        · cases Option.some.inj hd
          show d0.retry_count + 1 ≤ d0.max_retries
          omega
        · exact h iid dd hd
  | next p =>
    intro iid dd hd
    exact h iid dd hd
  | cancelR now id uid =>
    intro iid dd hd
    simp only [applyOp, cancelRoute] at hd
    rcases hl : alistLookup st.tasks id with _ | d0
    · rw [hl] at hd
      exact h iid dd hd
    · by_cases hu : d0.user_id = uid
      · by_cases ht : d0.status.isTerminal = true
        · simp [hl, hu, ht] at hd
          exact h iid dd hd
        · simp [hl, hu, ht] at hd
          exact retryInv_updateTaskStatus st now id .cancelled none
            (some "Cancelled by user") none h iid dd hd
      · simp [hl, hu] at hd
        exact h iid dd hd

/-- Preservation of the retry-budget invariant along any operation
sequence. -/
theorem retryInv_runOps (ops : List MOp) :
    ∀ st, (∀ op ∈ ops, op.createNonneg = true) → RetryInv st →
      RetryInv (runOps st ops) := by
  induction ops with
  | nil => intro st _ h; exact h
  | cons op rest ih =>
    intro st hops h
    exact ih _ (fun o ho => hops o (List.mem_cons_of_mem _ ho))
      (retryInv_applyOp st op (hops op (List.mem_cons_self _ _)) h)

/-- Claim C2: starting from an empty store, for every sequence of
manager operations whose creates request a non-negative retry budget
(every create in the repository uses the default budget 3), each stored
record keeps `retry_count ≤ max_retries`; moreover a retry called on
any task whose retry count has reached its budget returns failure with
the entire state unchanged — nothing is written and nothing is
re-enqueued. -/
theorem claimC2 (ops : List MOp)
    (hops : ∀ op ∈ ops, op.createNonneg = true) :
    RetryInv (runOps ManagerState.empty ops) ∧
    ∀ now id d,
      alistLookup (runOps ManagerState.empty ops).tasks id = some d →
      d.max_retries ≤ d.retry_count →
      retryTask (runOps ManagerState.empty ops) now id =
        (false, runOps ManagerState.empty ops) := by
  constructor
  · refine retryInv_runOps ops ManagerState.empty hops ?_
    intro id d hd
    simp [ManagerState.empty, alistLookup] at hd
  · intro now id d hd hge
    unfold retryTask
    rw [hd]
    simp [hge]

/-- Witness for claim C2: one create with budget 0, after which the
task is at its limit and retry fails leaving the state unchanged. -/
theorem claimC2_witness :
    retryTask (runOps ManagerState.empty
        [MOp.create 0 "t" "job" "u" "p" .medium 0 300]) 5 "t" =
      (false, runOps ManagerState.empty
        [MOp.create 0 "t" "job" "u" "p" .medium 0 300]) := by
  have h := claimC2 [MOp.create 0 "t" "job" "u" "p" .medium 0 300] (by decide)
  exact h.2 5 "t"
    { task_id := "t", task_type := "job", user_id := "u", parameters := "p",
      status := .pending, priority := .medium, max_retries := 0,
      retry_count := 0, timeout_seconds := 300, created_at := 0,
      updated_at := 0, started_at := none, completed_at := none,
      result := none, error := none, progress := 0 }
    (by decide) (by decide)

/-- Enqueueing through `create_task` LPUSHes the fresh id onto the head
of its tier queue. -/
theorem createTask_queue (st : ManagerState) (now : Nat)
    (id ty uid ps : String) (p : TaskPriority) (mr ts : Int) :
    ((createTask st now id ty uid ps p mr ts).2).queues.get p =
      id :: st.queues.get p := by
  simp [createTask, queues_get_set_same, lpush]

/-- FIFO bookkeeping for a single tier: if the tier queue currently
holds the list `pending` in enqueue order (the redis list stores it
reversed, newest id at the head), then after any interleaving of
enqueues and dequeues, the dequeued ids followed by the remaining queue
in enqueue order are exactly `pending` followed by the enqueued ids in
enqueue order. -/
theorem runTier_fifo (p : TaskPriority) (now : Nat) :
    ∀ (ops : List QOp) (st : ManagerState) (pending : List String),
      st.queues.get p = pending.reverse →
      (runTier p now st ops).1 ++ ((runTier p now st ops).2.queues.get p).reverse =
        pending ++ enqIds ops := by
  intro ops
  induction ops with
  | nil =>
    intro st pending hq
    simp [runTier, enqIds, hq]
  | cons op rest ih =>
    intro st pending hq
    cases op with
    | enq id =>
      have hq2 : ((createTask st now id "job" "user" "params" p 3 300).2).queues.get p
          = (pending ++ [id]).reverse := by
        rw [createTask_queue, hq, List.reverse_append]
        rfl
      have hrec := ih _ _ hq2
      simp only [runTier, enqIds]
      rw [hrec, List.append_assoc]
      rfl
    | deq =>
      cases pending with
      | nil =>
        have hget : (getNextTask st p).1 = none := by
          simp [getNextTask, hq]
        have hq2 : (getNextTask st p).2.queues.get p = List.reverse [] := by
          simp [getNextTask, queues_get_set_same, hq]
        have hrec := ih (getNextTask st p).2 [] hq2
        simp only [runTier]
        rw [hget]
        simpa [enqIds] using hrec
      | cons a pd =>
        have hconc : st.queues.get p = pd.reverse ++ [a] := by
          rw [hq, List.reverse_cons]
        have hget : (getNextTask st p).1 = some a := by
          simp [getNextTask, hconc, List.getLast?_concat]
        have hq2 : (getNextTask st p).2.queues.get p = pd.reverse := by
          simp [getNextTask, queues_get_set_same, hconc, List.dropLast_concat]
        have hrec := ih (getNextTask st p).2 pd hq2
        simp only [runTier]
        rw [hget]
        simp only [List.cons_append, hrec, enqIds]

/-- Claim C4: per-tier FIFO.  Starting from an empty tier queue, for
every sequence of enqueues (`create_task` at that tier) and dequeues
(`get_next_task` at that tier), the dequeued ids followed by the ids
still queued (in enqueue order) equal the enqueued ids in enqueue
order — so repeated dequeuing returns ids in exactly the order they
were enqueued. -/
theorem claimC4 (p : TaskPriority) (now : Nat) (ops : List QOp)
    (st : ManagerState) (h : st.queues.get p = []) :
    (runTier p now st ops).1 ++ ((runTier p now st ops).2.queues.get p).reverse =
      enqIds ops := by
  simpa using runTier_fifo p now ops st [] (by simpa using h)

/-- Witness for claim C4: two enqueues then two dequeues on the high
tier from the empty store. -/
theorem claimC4_witness :
    (runTier .high 0 ManagerState.empty
        [QOp.enq "a", QOp.enq "b", QOp.deq, QOp.deq]).1 ++
      ((runTier .high 0 ManagerState.empty
        [QOp.enq "a", QOp.enq "b", QOp.deq, QOp.deq]).2.queues.get .high).reverse =
      enqIds [QOp.enq "a", QOp.enq "b", QOp.deq, QOp.deq] :=
  claimC4 .high 0 [QOp.enq "a", QOp.enq "b", QOp.deq, QOp.deq]
    ManagerState.empty (by decide)

end SocialApp
